import Mathlib

/-!
Verification of the ultrahuman-api-poller upsert protocol.

Shallow embedding of `src/ultrahuman-api-poller.py`: the `APIPoller` class's
`store_data`, `poll_api`, `print_debug_data` and the `run` loop body.

Modelling choices:
* Timestamps are seconds since the epoch (`Nat`); `datetime.strptime(date,
  "%Y-%m-%d")` yields midnight of a day, modelled as `day * 86400` for a day
  index `day : Nat`; `timedelta(days=1)` is `+ 86400`.
* Metric values (JSON numbers/strings) are the inductive `MValue`; a null
  JSON value is `none` in `Option MValue`.
* The InfluxDB store is a list of points; `delete_api.delete` filters out the
  points matching the measurement predicate inside the half-open time range,
  and `write_api.write` appends one point.
* Backend calls are fallible: `failD`/`failW` oracles say whether the delete
  (resp. write) call for a given day raises.  The Python `try`/`except` that
  wraps the whole per-date loop is modelled by the loop stopping (with an
  error log line) at the first failing call.
* `print` output is the list of `LogLine`s; a Python exception escaping a
  function is `Except.error`.
-/

/-- A JSON metric value that is not null: a number or a string. -/
inductive MValue where
  | int (n : Int)
  | str (s : String)
deriving DecidableEq

/-- The per-date metrics mapping: metric name to possibly-null value. -/
abbrev Metrics := List (String × Option MValue)

/-- One InfluxDB point: measurement name, timestamp, and its fields. -/
structure Point where
  measurement : String
  time : Nat
  fields : List (String × MValue)
deriving DecidableEq

/-- The InfluxDB bucket contents. -/
abbrev Store := List Point

/-- `datetime.strptime(date, "%Y-%m-%d")` as seconds: midnight of the day. -/
def midnight (day : Nat) : Nat := day * 86400

/-- The predicate used by `delete_api.delete`: measurement matches and the
timestamp is in the half-open range `[start, stop)`. -/
def matchesDelete (meas : String) (start stop : Nat) (p : Point) : Bool :=
  p.measurement == meas && decide (start ≤ p.time) && decide (p.time < stop)

/-- `delete_api.delete`: drop every matching point from the store. -/
def deleteRange (meas : String) (start stop : Nat) (s : Store) : Store :=
  s.filter (fun p => !(matchesDelete meas start stop p))

/-- `write_api.write`: append one point to the store. -/
def writePoint (p : Point) (s : Store) : Store := s ++ [p]

/-- Lines 154-160: build the point for one date; a field per metric whose
value is not `None`, in iteration order. -/
def buildPoint (day : Nat) (m : Metrics) : Point :=
  { measurement := "daily_metrics"
    time := midnight day
    fields := m.filterMap (fun kv => kv.2.map (fun v => (kv.1, v))) }

/-- A `print` call of the poller, by source line. -/
inductive LogLine where
  | noDailyData                 -- "No daily data found in API response"
  | deletedExisting (day : Nat) -- debug: "Deleted existing data points for ..."
  | storedPoint (day : Nat)     -- "Successfully stored data point for ..."
  | storeError                  -- "Error storing data in InfluxDB: ..."
  | pollError                   -- "Error polling API: ..."
  | errorBody (body : String)   -- debug: "Error response: ..." (the body text)
  | pollingUrl                  -- debug: "Polling URL: ..."
  | debugDate (day : Nat)       -- debug block printed for one date
  | unexpectedError             -- run loop: "Unexpected error: ..."
deriving DecidableEq

/-- The poller configuration read from the environment in `__init__`:
the four Influx variables (`None` when unset) and `DEBUG_MODE`. -/
structure Config where
  influx_url : Option String
  influx_token : Option String
  influx_org : Option String
  influx_bucket : Option String
  debug_mode : Bool

/-- Python truthiness of an optional environment string: `None` and the
empty string are falsy. -/
def truthyStr : Option String → Bool
  | none => false
  | some s => !(s == "")

/-- Line 36: `all([url, token, org, bucket])`; the Influx client exists
exactly when this holds. -/
def influxConfigured (c : Config) : Bool :=
  truthyStr c.influx_url && truthyStr c.influx_token &&
    truthyStr c.influx_org && truthyStr c.influx_bucket

/-- The parsed JSON body, restricted to the shape `store_data` and
`print_debug_data` consume.  `noDaily` covers any body where `data` or
`data.daily_data` is missing (`truthy` records Python truthiness of the
whole dict); `daily dd` carries `data.daily_data` as a list of
(parsed day, metrics) pairs in dict iteration order. -/
inductive ApiData where
  | noDaily (truthy : Bool)
  | daily (dd : List (Nat × Metrics))
deriving DecidableEq

/-- Python truthiness of the parsed response dict (`if data and ...`). -/
def dataTruthy : ApiData → Bool
  | .noDaily t => t
  | .daily _ => true

/-- Everything observable about one `store_data` call: the resulting store,
the printed lines, how many write and (completed) delete calls were made,
and the Python return value — which is always `None`. -/
structure SDResult where
  store : Store
  log : List LogLine
  written : Nat
  deletes : Nat
  ret : Option Nat
deriving DecidableEq

/-- Lines 137-163: the per-date loop of `store_data`.  The surrounding
`try`/`except Exception` (lines 130-166) encloses the WHOLE loop, so the
first failing delete or write call jumps out of the loop: the error line is
printed and the call returns, leaving the remaining dates unprocessed. -/
def storeLoop (c : Config) (failD failW : Nat → Bool) :
    List (Nat × Metrics) → Store → List LogLine → Nat → Nat → SDResult
  | [], s, log, w, del => ⟨s, log, w, del, none⟩
  | (day, m) :: rest, s, log, w, del =>
    if failD day then
      ⟨s, log ++ [.storeError], w, del, none⟩
    else
      let s1 := deleteRange "daily_metrics" (midnight day) (midnight day + 86400) s
      let log1 := log ++ (if c.debug_mode then [LogLine.deletedExisting day] else [])
      if failW day then
        ⟨s1, log1 ++ [.storeError], w, del + 1, none⟩
      else
        storeLoop c failD failW rest (writePoint (buildPoint day m) s1)
          (log1 ++ [.storedPoint day]) (w + 1) (del + 1)

/-- Lines 123-166, `APIPoller.store_data`: returns immediately when the
Influx client is unconfigured; prints and returns when `data.daily_data`
is absent; otherwise runs the per-date delete-then-write loop. -/
def store_data (c : Config) (failD failW : Nat → Bool) (data : ApiData)
    (s : Store) : SDResult :=
  if !(influxConfigured c) then ⟨s, [], 0, 0, none⟩
  else
    match data with
    | .noDaily _ => ⟨s, [.noDailyData], 0, 0, none⟩
    | .daily dd => storeLoop c failD failW dd s [] 0 0

/-- `store_data` on the path where every backend call succeeds. -/
def store_data_ok (c : Config) (data : ApiData) (s : Store) : SDResult :=
  store_data c (fun _ => false) (fun _ => false) data s

/-- Line 88: `max(len(key) for key in metrics.keys())` — `max` of an empty
sequence raises `ValueError`. -/
def maxKeyLength (m : Metrics) : Except Unit Nat :=
  match m with
  | [] => .error ()
  | _ => .ok (m.foldl (fun acc kv => Nat.max acc kv.1.length) 0)

/-- Lines 82-95: the per-date body of `print_debug_data`; raises at the
first date whose metrics dict is empty. -/
def debugLoop : List (Nat × Metrics) → Except Unit (List LogLine)
  | [] => .ok []
  | (day, m) :: rest => do
    let _ ← maxKeyLength m
    let ls ← debugLoop rest
    .ok (LogLine.debugDate day :: ls)

/-- Lines 71-96, `APIPoller.print_debug_data`: `Except.error` models the
uncaught `ValueError` escaping the function. -/
def print_debug_data (data : ApiData) : Except Unit (List LogLine) :=
  match data with
  | .noDaily _ => .ok [.noDailyData]
  | .daily dd => debugLoop dd

/-- What one HTTP GET produced: a `requests` transport error (with the
`.text` of an attached response when it has one), or a response with a
status code, a body, and its parsed JSON. -/
inductive FetchOutcome where
  | transportErr (respText : Option String)
  | http (status : Nat) (body : String) (data : ApiData)
deriving DecidableEq

/-- `response.raise_for_status()` raises exactly for 4xx and 5xx codes. -/
def raisesForStatus (status : Nat) : Bool :=
  decide (400 ≤ status) && decide (status < 600)

instance {ε α : Type} [DecidableEq ε] [DecidableEq α] :
    DecidableEq (Except ε α) := fun a b =>
  match a, b with
  | .error x, .error y => decidable_of_iff (x = y) (by simp)
  | .error _, .ok _ => isFalse (by simp)
  | .ok _, .error _ => isFalse (by simp)
  | .ok x, .ok y => decidable_of_iff (x = y) (by simp)

/-- Result of `poll_api`: `val` is `.error` for an exception that is not a
`RequestException` escaping the function, `.ok none` for the handled-error
`return None`, `.ok (some d)` for a successful return. -/
structure PollResult where
  val : Except Unit (Option ApiData)
  log : List LogLine
deriving DecidableEq

/-- Lines 98-121, `APIPoller.poll_api`.  A transport error or a 4xx/5xx
status is caught by the `except requests.exceptions.RequestException`
handler: it prints the error and — only in debug mode, and only when the
exception's response has a `text` — the response body, then returns `None`.
A `ValueError` from `print_debug_data` is not a `RequestException` and
escapes. -/
def poll_api (c : Config) (out : FetchOutcome) : PollResult :=
  let dbg := if c.debug_mode then [LogLine.pollingUrl] else []
  match out with
  | .transportErr respText =>
    ⟨.ok none, dbg ++ [.pollError] ++
      (match c.debug_mode, respText with
       | true, some t => [LogLine.errorBody t]
       | _, _ => [])⟩
  | .http status body data =>
    if raisesForStatus status then
      ⟨.ok none, dbg ++ [.pollError] ++
        (if c.debug_mode then [LogLine.errorBody body] else [])⟩
    else
      if c.debug_mode then
        match print_debug_data data with
        | .error _ => ⟨.error (), dbg⟩
        | .ok ls => ⟨.ok (some data), dbg ++ ls⟩
      else ⟨.ok (some data), dbg⟩

/-- What happens during one iteration of the `while True` loop: either the
cycle runs with some fetch outcome, or a `KeyboardInterrupt` arrives. -/
inductive CycleEvent where
  | fetch (out : FetchOutcome)
  | interrupt
deriving DecidableEq

/-- Observable result of one loop iteration: the store afterwards, points
written, whether the loop keeps running, and the printed lines. -/
structure CycleResult where
  store : Store
  written : Nat
  looping : Bool
  log : List LogLine
deriving DecidableEq

/-- Lines 178-192, the body of the `while True` loop in `APIPoller.run`:
`KeyboardInterrupt` breaks; any other exception is printed and the loop
continues; otherwise `store_data` runs when the fetched data is truthy and
the Influx client exists. -/
def run_cycle (c : Config) (failD failW : Nat → Bool) (ev : CycleEvent)
    (s : Store) : CycleResult :=
  match ev with
  | .interrupt => ⟨s, 0, false, []⟩
  | .fetch out =>
    let pr := poll_api c out
    match pr.val with
    | .error _ => ⟨s, 0, true, pr.log ++ [.unexpectedError]⟩
    | .ok none => ⟨s, 0, true, pr.log⟩
    | .ok (some data) =>
      if dataTruthy data && influxConfigured c then
        let r := store_data c failD failW data s
        ⟨r.store, r.written, true, pr.log ++ r.log⟩
      else ⟨s, 0, true, pr.log⟩

/-- Points of the store lying in the given day's window of a series. -/
def pointsForDay (meas : String) (day : Nat) (s : Store) : Store :=
  s.filter (matchesDelete meas (midnight day) (midnight day + 86400))

/-- The invariant of claim C3: at most one stored point per measurement and
day window. -/
def atMostOnePerDay (s : Store) : Prop :=
  ∀ meas day,
    s.countP (matchesDelete meas (midnight day) (midnight day + 86400)) ≤ 1

/-- A fully configured poller used in concrete instantiations. -/
def cfgOn (dbg : Bool) : Config :=
  ⟨some "http://influx", some "tok", some "org", some "bucket", dbg⟩

/-- `LogLine.storedPoint` detector: one such line is printed per write. -/
def isStoredLine : LogLine → Bool
  | .storedPoint _ => true
  | _ => false

/-! ## Helper lemmas -/

lemma filterMap_field_length (m : Metrics) :
    (m.filterMap (fun kv => kv.2.map (fun v => (kv.1, v)))).length =
      m.countP (fun kv => kv.2.isSome) := by
  induction m with
  | nil => rfl
  | cons kv rest ih =>
    rcases kv with ⟨k, v⟩
    cases v <;> simp [List.filterMap_cons, List.countP_cons, ih]

lemma buildPoint_mem_fields (d : Nat) (m : Metrics) (k : String) (v : MValue) :
    (k, v) ∈ (buildPoint d m).fields ↔ (k, some v) ∈ m := by
  simp only [buildPoint, List.mem_filterMap]
  constructor
  · rintro ⟨⟨a, b⟩, hmem, hf⟩
    cases b with
    | none => simp at hf
    | some w =>
      simp only [Option.map_some', Option.some.injEq, Prod.mk.injEq] at hf
      rcases hf with ⟨rfl, rfl⟩
      exact hmem
  · intro hm
    exact ⟨(k, some v), hm, rfl⟩

lemma storeLoop_ret_none (c : Config) (failD failW : Nat → Bool)
    (dd : List (Nat × Metrics)) :
    ∀ s log w del, (storeLoop c failD failW dd s log w del).ret = none := by
  induction dd with
  | nil => intro s log w del; rfl
  | cons x rest ih =>
    rcases x with ⟨day, m⟩
    intro s log w del
    by_cases hD : failD day
    · simp [storeLoop, hD]
    · by_cases hW : failW day
      · simp [storeLoop, hD, hW]
      · simp [storeLoop, hD, hW, ih]

lemma storeLoop_log_count (c : Config) (failD failW : Nat → Bool)
    (dd : List (Nat × Metrics)) :
    ∀ s log w del, log.countP isStoredLine = w →
      (storeLoop c failD failW dd s log w del).log.countP isStoredLine =
        (storeLoop c failD failW dd s log w del).written := by
  induction dd with
  | nil => intro s log w del h; simpa [storeLoop]
  | cons x rest ih =>
    rcases x with ⟨day, m⟩
    intro s log w del h
    by_cases hD : failD day
    · simp [storeLoop, hD, List.countP_append, h, isStoredLine]
    · by_cases hW : failW day
      · cases hdbg : c.debug_mode <;>
          simp [storeLoop, hD, hW, hdbg, List.countP_append, h, isStoredLine]
      · simp only [storeLoop, hD, hW, if_false, Bool.false_eq_true]
        apply ih
        cases hdbg : c.debug_mode <;>
          simp [hdbg, List.countP_append, h, isStoredLine]

/-! ## Claim C6 -/

/-- Claim C6: if any of the four Influx configuration values is absent, the
upsert is a no-op for every input: the store is untouched, nothing is
printed, no delete or write call happens, and the function returns `None`
without raising. -/
theorem C6_unconfigured_noop (c : Config) (failD failW : Nat → Bool)
    (data : ApiData) (s : Store)
    (h : c.influx_url = none ∨ c.influx_token = none ∨
         c.influx_org = none ∨ c.influx_bucket = none) :
    store_data c failD failW data s = ⟨s, [], 0, 0, none⟩ := by
  have hc : influxConfigured c = false := by
    rcases h with h | h | h | h <;> simp [influxConfigured, truthyStr, h]
  simp [store_data, hc]

theorem C6_unconfigured_noop_witness :
    ((Config.mk none (some "t") (some "o") (some "b") false).influx_url = none ∨
     (Config.mk none (some "t") (some "o") (some "b") false).influx_token = none ∨
     (Config.mk none (some "t") (some "o") (some "b") false).influx_org = none ∨
     (Config.mk none (some "t") (some "o") (some "b") false).influx_bucket = none) ∧
    store_data (Config.mk none (some "t") (some "o") (some "b") false)
      (fun _ => true) (fun _ => true)
      (.daily [(0, [("steps", some (.int 1))])]) [] = ⟨[], [], 0, 0, none⟩ :=
  ⟨Or.inl rfl,
   C6_unconfigured_noop (Config.mk none (some "t") (some "o") (some "b") false)
     (fun _ => true) (fun _ => true)
     (.daily [(0, [("steps", some (.int 1))])]) [] (Or.inl rfl)⟩

/-! ## Claim C9 -/

/-- Claim C9: whatever a fetch cycle produces (handled fetch error, uncaught
exception, store failures via the oracles), the loop keeps running; it stops
only on the external interrupt. -/
theorem C9_loop_never_stops_on_error (c : Config) (failD failW : Nat → Bool)
    (out : FetchOutcome) (s : Store) :
    (run_cycle c failD failW (.fetch out) s).looping = true ∧
    (run_cycle c failD failW .interrupt s).looping = false := by
  constructor
  · cases h : (poll_api c out).val with
    | error e => simp [run_cycle, h]
    | ok od =>
      cases od with
      | none => simp [run_cycle, h]
      | some d =>
        by_cases ht : (dataTruthy d && influxConfigured c) = true <;>
          simp [run_cycle, h, ht]
  · rfl

/-! ## Claim C8 -/

/-- Claim C8: the point stored for a date carries exactly one field per
non-null metric (their count equals the number of non-null entries), each
field comes from a non-null entry of the metrics map, and the store receives
exactly that point after the day-window delete. -/
theorem C8_point_has_nonnull_fields (c : Config) (hc : influxConfigured c = true)
    (d : Nat) (m : Metrics) (s : Store) :
    (store_data_ok c (.daily [(d, m)]) s).store =
      deleteRange "daily_metrics" (midnight d) (midnight d + 86400) s ++
        [buildPoint d m] ∧
    (buildPoint d m).fields.length = m.countP (fun kv => kv.2.isSome) ∧
    ∀ kv ∈ (buildPoint d m).fields, (kv.1, some kv.2) ∈ m := by
  refine ⟨?_, filterMap_field_length m, ?_⟩
  · simp [store_data_ok, store_data, hc, storeLoop, writePoint]
  · intro kv hkv
    exact (buildPoint_mem_fields d m kv.1 kv.2).mp hkv

theorem C8_point_has_nonnull_fields_witness :
    influxConfigured (cfgOn false) = true ∧
    ((store_data_ok (cfgOn false)
        (.daily [(0, [("steps", some (.int 1000)), ("sleep_score", none)])])
        []).store =
      deleteRange "daily_metrics" (midnight 0) (midnight 0 + 86400) [] ++
        [buildPoint 0 [("steps", some (.int 1000)), ("sleep_score", none)]] ∧
    (buildPoint 0 [("steps", some (.int 1000)), ("sleep_score", none)]).fields.length =
      List.countP (fun kv => kv.2.isSome)
        [("steps", some (MValue.int 1000)), ("sleep_score", none)] ∧
    ∀ kv ∈ (buildPoint 0
        [("steps", some (.int 1000)), ("sleep_score", none)]).fields,
      (kv.1, some kv.2) ∈
        [("steps", some (MValue.int 1000)), ("sleep_score", none)]) :=
  ⟨by decide,
   C8_point_has_nonnull_fields (cfgOn false) (by decide) 0
     [("steps", some (.int 1000)), ("sleep_score", none)] []⟩

/-! ## Claim C4 -/

/-- Claim C4 counterexample: upserting a date whose only metric is null
writes ONE point (with zero fields), not zero points — the code never skips
the write. -/
theorem C4_counterexample :
    (store_data_ok (cfgOn false) (.daily [(5, [("steps", none)])]) []).written
      = 1 ∧
    (store_data_ok (cfgOn false) (.daily [(5, [("steps", none)])]) []).store =
      [{ measurement := "daily_metrics", time := midnight 5, fields := [] }] :=
  by decide

/-- Claim C4 amended: for a date whose metrics map is empty or all-null, the
upsert still performs the delete and one write: exactly one point is written
for that date, and that point has zero fields. -/
theorem C4_all_null_writes_fieldless_point (c : Config)
    (hc : influxConfigured c = true) (d : Nat) (m : Metrics) (s : Store)
    (hm : ∀ kv ∈ m, kv.2 = none) :
    (store_data_ok c (.daily [(d, m)]) s).written = 1 ∧
    (store_data_ok c (.daily [(d, m)]) s).store =
      deleteRange "daily_metrics" (midnight d) (midnight d + 86400) s ++
        [{ measurement := "daily_metrics", time := midnight d, fields := [] }] := by
  have hf : buildPoint d m =
      { measurement := "daily_metrics", time := midnight d, fields := [] } := by
    unfold buildPoint
    congr 1
    rw [List.filterMap_eq_nil_iff]
    intro kv hkv
    simp [hm kv hkv]
  constructor
  · simp [store_data_ok, store_data, hc, storeLoop]
  · simp [store_data_ok, store_data, hc, storeLoop, writePoint, hf]

theorem C4_all_null_writes_fieldless_point_witness :
    influxConfigured (cfgOn false) = true ∧
    (∀ kv ∈ [(("steps" : String), (none : Option MValue))], kv.2 = none) ∧
    ((store_data_ok (cfgOn false) (.daily [(5, [("steps", none)])]) []).written
        = 1 ∧
      (store_data_ok (cfgOn false) (.daily [(5, [("steps", none)])]) []).store =
        deleteRange "daily_metrics" (midnight 5) (midnight 5 + 86400) [] ++
          [{ measurement := "daily_metrics", time := midnight 5,
             fields := [] }]) :=
  ⟨by decide, by decide,
   C4_all_null_writes_fieldless_point (cfgOn false) (by decide) 5
     [("steps", none)] [] (by decide)⟩

/-! ## Claim C5 -/

/-- Claim C5 counterexample: a successful upsert that writes one point still
returns `None`, not the count of points written — `store_data` has no return
value. -/
theorem C5_counterexample :
    (store_data_ok (cfgOn false)
      (.daily [(3, [("steps", some (.int 7))])]) []).written = 1 ∧
    (store_data_ok (cfgOn false)
      (.daily [(3, [("steps", some (.int 7))])]) []).ret = none ∧
    (none : Option Nat) ≠ some 1 := by decide

/-- Claim C5 amended: `store_data` always returns `None` (never a count and
never an exception); the count of points written is observable only in the
log, as exactly one "Successfully stored" line per written point. -/
theorem C5_returns_none_count_in_log (c : Config) (failD failW : Nat → Bool)
    (data : ApiData) (s : Store) :
    (store_data c failD failW data s).ret = none ∧
    (store_data c failD failW data s).log.countP isStoredLine =
      (store_data c failD failW data s).written := by
  unfold store_data
  by_cases hc : influxConfigured c
  · cases data with
    | noDaily t => simp [hc, isStoredLine]
    | daily dd =>
      simp only [hc, Bool.not_true, Bool.false_eq_true, if_false]
      exact ⟨storeLoop_ret_none c failD failW dd s [] 0 0,
        storeLoop_log_count c failD failW dd s [] 0 0 (by simp)⟩
  · simp [hc]

/-! ## Claim C1 -/

lemma storeLoop_fail_stops (c : Config) (failD failW : Nat → Bool)
    (d : Nat) (m : Metrics) (post : List (Nat × Metrics))
    (hd : failD d = true ∨ failW d = true) :
    ∀ pre : List (Nat × Metrics),
      (∀ x ∈ pre, failD x.1 = false ∧ failW x.1 = false) →
      ∀ s log w del,
        storeLoop c failD failW (pre ++ (d, m) :: post) s log w del =
          storeLoop c failD failW (pre ++ [(d, m)]) s log w del ∧
        (storeLoop c failD failW (pre ++ (d, m) :: post) s log w del).log.getLast?
          = some .storeError := by
  intro pre
  induction pre with
  | nil =>
    intro _ s log w del
    rcases hd with hD | hW
    · simp [storeLoop, hD, List.getLast?_concat]
    · by_cases hD : failD d
      · simp [storeLoop, hD, List.getLast?_concat]
      · simp [storeLoop, hD, hW, List.getLast?_concat]
  | cons x rest ih =>
    intro hpre s log w del
    rcases x with ⟨day, mm⟩
    have h1 : failD day = false := (hpre (day, mm) (by simp)).1
    have h2 : failW day = false := (hpre (day, mm) (by simp)).2
    have hrest : ∀ x ∈ rest, failD x.1 = false ∧ failW x.1 = false :=
      fun y hy => hpre y (by simp [hy])
    simp only [List.cons_append, storeLoop, h1, h2, Bool.false_eq_true,
      if_false]
    exact ih hrest _ _ _ _

/-- Claim C1 counterexample: the delete for the first date fails, and the
second date — whose own delete and write would succeed — is never processed:
one error line, nothing stored, nothing written. -/
theorem C1_counterexample :
    (store_data (cfgOn false) (fun d => d == 0) (fun _ => false)
      (.daily [(0, [("steps", some (.int 1))]),
               (1, [("steps", some (.int 2))])]) []).store = [] ∧
    (store_data (cfgOn false) (fun d => d == 0) (fun _ => false)
      (.daily [(0, [("steps", some (.int 1))]),
               (1, [("steps", some (.int 2))])]) []).log = [.storeError] ∧
    (store_data (cfgOn false) (fun d => d == 0) (fun _ => false)
      (.daily [(0, [("steps", some (.int 1))]),
               (1, [("steps", some (.int 2))])]) []).written = 0 := by decide

/-- Claim C1 amended: when the delete or write for some date fails (all
earlier dates succeeding), the error is reported and the whole `store_data`
call stops there: the dates after the failing one are not processed at all
(the result is the same as if they were absent), the last printed line is
the storage error, and the call still returns normally (`None`) so the
exception does not propagate out of `store_data`. -/
theorem C1_failure_aborts_remaining_dates (c : Config)
    (failD failW : Nat → Bool) (pre : List (Nat × Metrics)) (d : Nat)
    (m : Metrics) (post : List (Nat × Metrics)) (s : Store)
    (hpre : ∀ x ∈ pre, failD x.1 = false ∧ failW x.1 = false)
    (hd : failD d = true ∨ failW d = true) :
    store_data c failD failW (.daily (pre ++ (d, m) :: post)) s =
      store_data c failD failW (.daily (pre ++ [(d, m)])) s ∧
    (influxConfigured c = true →
      (store_data c failD failW (.daily (pre ++ (d, m) :: post)) s).log.getLast?
        = some .storeError) ∧
    (store_data c failD failW (.daily (pre ++ (d, m) :: post)) s).ret = none := by
  by_cases hc : influxConfigured c
  · have h := storeLoop_fail_stops c failD failW d m post hd pre hpre s [] 0 0
    refine ⟨?_, fun _ => ?_, ?_⟩
    · simp [store_data, hc, h.1]
    · simpa [store_data, hc] using h.2
    · simp [store_data, hc, storeLoop_ret_none]
  · simp [store_data, hc]

theorem C1_failure_aborts_remaining_dates_witness :
    (∀ x ∈ [((0 : Nat), [(("steps" : String), some (MValue.int 1))])],
      ((fun d => d == 1) x.1) = false ∧ ((fun _ : Nat => false) x.1) = false) ∧
    ((fun d => d == 1) (1 : Nat) = true ∨ (fun _ : Nat => false) (1 : Nat) = true) ∧
    (store_data (cfgOn false) (fun d => d == 1) (fun _ => false)
        (.daily ([(0, [("steps", some (.int 1))])] ++
          (1, [("steps", some (.int 2))]) :: [(2, [("steps", some (.int 3))])]))
        [] =
      store_data (cfgOn false) (fun d => d == 1) (fun _ => false)
        (.daily ([(0, [("steps", some (.int 1))])] ++
          [(1, [("steps", some (.int 2))])])) [] ∧
    (influxConfigured (cfgOn false) = true →
      (store_data (cfgOn false) (fun d => d == 1) (fun _ => false)
        (.daily ([(0, [("steps", some (.int 1))])] ++
          (1, [("steps", some (.int 2))]) :: [(2, [("steps", some (.int 3))])]))
        []).log.getLast? = some .storeError) ∧
    (store_data (cfgOn false) (fun d => d == 1) (fun _ => false)
        (.daily ([(0, [("steps", some (.int 1))])] ++
          (1, [("steps", some (.int 2))]) :: [(2, [("steps", some (.int 3))])]))
        []).ret = none) :=
  ⟨by decide, by decide,
   C1_failure_aborts_remaining_dates (cfgOn false) (fun d => d == 1)
     (fun _ => false) [(0, [("steps", some (.int 1))])] 1
     [("steps", some (.int 2))] [(2, [("steps", some (.int 3))])] []
     (by decide) (by decide)⟩

/-! ## Claim C2 -/

lemma filter_of_filter_not (q : Point → Bool) (l : Store) :
    (l.filter (fun a => !(q a))).filter q = [] := by
  induction l with
  | nil => rfl
  | cons a l ih =>
    by_cases h : q a <;> simp [List.filter_cons, h, ih]

lemma matchesDelete_buildPoint_self (d : Nat) (m : Metrics) :
    matchesDelete "daily_metrics" (midnight d) (midnight d + 86400)
      (buildPoint d m) = true := by
  simp [matchesDelete, buildPoint]

/-- Claim C2: upserting the same date twice leaves exactly one point in the
day window of series "daily_metrics" — the one built from the second call's
metrics — and that point's fields are exactly the non-null entries of the
second metrics map. -/
theorem C2_second_upsert_overwrites (c : Config)
    (hc : influxConfigured c = true) (d : Nat) (m1 m2 : Metrics) (s : Store) :
    pointsForDay "daily_metrics" d
      (store_data_ok c (.daily [(d, m2)])
        (store_data_ok c (.daily [(d, m1)]) s).store).store =
      [buildPoint d m2] ∧
    ∀ k v, ((k, v) ∈ (buildPoint d m2).fields ↔ (k, some v) ∈ m2) := by
  refine ⟨?_, fun k v => buildPoint_mem_fields d m2 k v⟩
  simp only [store_data_ok, store_data, hc, Bool.not_true, Bool.false_eq_true,
    if_false, storeLoop, writePoint]
  rw [pointsForDay, deleteRange, List.filter_append, filter_of_filter_not]
  simp [matchesDelete_buildPoint_self]

theorem C2_second_upsert_overwrites_witness :
    influxConfigured (cfgOn false) = true ∧
    (pointsForDay "daily_metrics" 2
      (store_data_ok (cfgOn false) (.daily [(2, [("steps", some (.int 2000))])])
        (store_data_ok (cfgOn false)
          (.daily [(2, [("steps", some (.int 1000))])]) []).store).store =
      [buildPoint 2 [("steps", some (.int 2000))]] ∧
    ∀ k v, ((k, v) ∈ (buildPoint 2 [("steps", some (.int 2000))]).fields ↔
      (k, some v) ∈ [(("steps" : String), some (MValue.int 2000))])) :=
  ⟨by decide,
   C2_second_upsert_overwrites (cfgOn false) (by decide) 2
     [("steps", some (.int 1000))] [("steps", some (.int 2000))] []⟩

/-! ## Claim C3 -/

lemma countP_deleteRange_le (meas : String) (a b : Nat) (q : Point → Bool)
    (s : Store) :
    (deleteRange meas a b s).countP q ≤ s.countP q :=
  (List.filter_sublist s).countP_le q

lemma countP_deleteRange_self (meas : String) (a b : Nat) (s : Store) :
    (deleteRange meas a b s).countP (matchesDelete meas a b) = 0 := by
  rw [List.countP_eq_zero]
  intro p hp
  rw [deleteRange, List.mem_filter] at hp
  simpa using hp.2

lemma matchesDelete_midnight (meas : String) (day d : Nat) (p : Point)
    (hmeas : p.measurement = "daily_metrics") (htime : p.time = midnight d) :
    matchesDelete meas (midnight day) (midnight day + 86400) p = true ↔
      meas = "daily_metrics" ∧ day = d := by
  simp only [matchesDelete, midnight, hmeas, htime, Bool.and_eq_true,
    beq_iff_eq, decide_eq_true_eq]
  constructor
  · rintro ⟨⟨h1, h2⟩, h3⟩
    exact ⟨h1.symm, by omega⟩
  · rintro ⟨h1, h2⟩
    exact ⟨⟨h1.symm, by omega⟩, by omega⟩

lemma writeStep_inv (day : Nat) (m : Metrics) (s : Store)
    (h : atMostOnePerDay s) :
    atMostOnePerDay (writePoint (buildPoint day m)
      (deleteRange "daily_metrics" (midnight day) (midnight day + 86400) s)) := by
  intro meas dy
  rw [writePoint, List.countP_append]
  by_cases hmd : meas = "daily_metrics" ∧ dy = day
  · rw [hmd.1, hmd.2]
    have h0 := countP_deleteRange_self "daily_metrics" (midnight day)
      (midnight day + 86400) s
    simp only [h0, List.countP_cons, List.countP_nil]
    split <;> simp
  · have hq : matchesDelete meas (midnight dy) (midnight dy + 86400)
        (buildPoint day m) = false := by
      rw [Bool.eq_false_iff]
      intro hcontra
      exact hmd ((matchesDelete_midnight meas dy day (buildPoint day m)
        rfl rfl).mp hcontra)
    have hle := countP_deleteRange_le "daily_metrics" (midnight day)
      (midnight day + 86400)
      (matchesDelete meas (midnight dy) (midnight dy + 86400)) s
    have hs := h meas dy
    simp only [List.countP_cons, List.countP_nil, hq, if_false,
      Bool.false_eq_true]
    omega

lemma storeLoop_inv (c : Config) (failD failW : Nat → Bool)
    (dd : List (Nat × Metrics)) :
    ∀ s log w del, atMostOnePerDay s →
      atMostOnePerDay (storeLoop c failD failW dd s log w del).store := by
  induction dd with
  | nil => intro s log w del h; simpa [storeLoop]
  | cons x rest ih =>
    rcases x with ⟨day, m⟩
    intro s log w del h
    by_cases hD : failD day
    · simpa [storeLoop, hD]
    · by_cases hW : failW day
      · simp only [storeLoop, hD, hW, Bool.false_eq_true, if_false, if_true]
        intro meas dy
        exact le_trans (countP_deleteRange_le _ _ _ _ s) (h meas dy)
      · simp only [storeLoop, hD, hW, Bool.false_eq_true, if_false]
        exact ih _ _ _ _ (writeStep_inv day m s h)

/-- Claim C3: a completed `store_data` call preserves the invariant that at
most one stored point exists per (series, day window): every day it touches
has its full window deleted before the single new point — timestamped at
that day's midnight — is written, and other (series, day) pairs only ever
lose points. -/
theorem C3_at_most_one_point_per_day (c : Config) (failD failW : Nat → Bool)
    (data : ApiData) (s : Store) (h : atMostOnePerDay s) :
    atMostOnePerDay (store_data c failD failW data s).store := by
  unfold store_data
  by_cases hc : influxConfigured c
  · cases data with
    | noDaily t => simpa [hc]
    | daily dd =>
      simp only [hc, Bool.not_true, Bool.false_eq_true, if_false]
      exact storeLoop_inv c failD failW dd s [] 0 0 h
  · simpa [hc]

theorem C3_at_most_one_point_per_day_witness :
    atMostOnePerDay [] ∧
    atMostOnePerDay (store_data (cfgOn false) (fun _ => false) (fun _ => false)
      (.daily [(0, [("steps", some (.int 1))]),
               (0, [("steps", some (.int 2))])]) []).store :=
  ⟨fun _ _ => by simp,
   C3_at_most_one_point_per_day (cfgOn false) (fun _ => false) (fun _ => false)
     (.daily [(0, [("steps", some (.int 1))]),
              (0, [("steps", some (.int 2))])]) []
     (fun _ _ => by simp)⟩

/-! ## Claim C7 -/

/-- The fetch outcomes on which `poll_api` takes its error path: a transport
error, or a status on which `raise_for_status` raises. -/
def fetchFails : FetchOutcome → Bool
  | .transportErr _ => true
  | .http status _ _ => raisesForStatus status

/-- The response body text available on the error, when any. -/
def respBody : FetchOutcome → Option String
  | .transportErr t => t
  | .http _ body _ => some body

/-- Claim C7 counterexample: a 500 response with a body, debug mode off —
the error is reported but the available response body is NOT carried in the
output (it is printed only in debug mode). -/
theorem C7_counterexample :
    respBody (.http 500 "internal server error" (.noDaily true)) =
      some "internal server error" ∧
    (poll_api (cfgOn false)
      (.http 500 "internal server error" (.noDaily true))).log =
      [LogLine.pollError] ∧
    LogLine.errorBody "internal server error" ∉
      (poll_api (cfgOn false)
        (.http 500 "internal server error" (.noDaily true))).log ∧
    (run_cycle (cfgOn false) (fun _ => false) (fun _ => false)
      (.fetch (.http 500 "internal server error" (.noDaily true))) []).looping
      = true := by decide

/-- Claim C7 amended: on a transport failure or a status that
`raise_for_status` raises on (4xx/5xx), `poll_api` prints the error and
returns `None`; the response body is additionally printed exactly when debug
mode is enabled and a body is available; no upsert is attempted for that
cycle, and the loop continues. -/
theorem C7_fetch_error_skips_cycle (c : Config) (failD failW : Nat → Bool)
    (out : FetchOutcome) (s : Store) (hf : fetchFails out = true) :
    (poll_api c out).val = .ok none ∧
    LogLine.pollError ∈ (poll_api c out).log ∧
    (∀ b, respBody out = some b → c.debug_mode = true →
      LogLine.errorBody b ∈ (poll_api c out).log) ∧
    (run_cycle c failD failW (.fetch out) s).store = s ∧
    (run_cycle c failD failW (.fetch out) s).written = 0 ∧
    (run_cycle c failD failW (.fetch out) s).looping = true := by
  have hval : poll_api c out =
      ⟨.ok none, (if c.debug_mode then [LogLine.pollingUrl] else []) ++
        [.pollError] ++
        (match c.debug_mode, respBody out with
         | true, some t => [LogLine.errorBody t]
         | _, _ => [])⟩ := by
    cases out with
    | transportErr t => rfl
    | http status body data =>
      have hst : raisesForStatus status = true := by simpa [fetchFails] using hf
      cases hdbg : c.debug_mode <;> simp [poll_api, hst, hdbg, respBody]
  refine ⟨by rw [hval], ?_, ?_, ?_, ?_, ?_⟩
  · rw [hval]; simp
  · intro b hb hdbg
    rw [hval, hdbg, hb]
    simp
  · simp [run_cycle, hval]
  · simp [run_cycle, hval]
  · simp [run_cycle, hval]

theorem C7_fetch_error_skips_cycle_witness :
    fetchFails (.http 500 "oops" (.noDaily true)) = true ∧
    ((poll_api (cfgOn true) (.http 500 "oops" (.noDaily true))).val =
        .ok none ∧
    LogLine.pollError ∈
      (poll_api (cfgOn true) (.http 500 "oops" (.noDaily true))).log ∧
    (∀ b, respBody (.http 500 "oops" (.noDaily true)) = some b →
      (cfgOn true).debug_mode = true →
      LogLine.errorBody b ∈
        (poll_api (cfgOn true) (.http 500 "oops" (.noDaily true))).log) ∧
    (run_cycle (cfgOn true) (fun _ => false) (fun _ => false)
      (.fetch (.http 500 "oops" (.noDaily true))) []).store = [] ∧
    (run_cycle (cfgOn true) (fun _ => false) (fun _ => false)
      (.fetch (.http 500 "oops" (.noDaily true))) []).written = 0 ∧
    (run_cycle (cfgOn true) (fun _ => false) (fun _ => false)
      (.fetch (.http 500 "oops" (.noDaily true))) []).looping = true) :=
  ⟨by decide,
   C7_fetch_error_skips_cycle (cfgOn true) (fun _ => false) (fun _ => false)
     (.http 500 "oops" (.noDaily true)) [] (by decide)⟩

/-! ## Claim C10 -/

lemma debugLoop_error_of_empty (dd : List (Nat × Metrics))
    (h : ∃ x ∈ dd, x.2 = []) : debugLoop dd = .error () := by
  induction dd with
  | nil => simp at h
  | cons x rest ih =>
    rcases x with ⟨day, m⟩
    by_cases hm : m = []
    · subst hm
      rfl
    · have h' : ∃ x ∈ rest, x.2 = [] := by
        rcases h with ⟨y, hy, hy2⟩
        rcases List.mem_cons.mp hy with rfl | hmem
        · exact absurd hy2 hm
        · exact ⟨y, hmem, hy2⟩
      cases m with
      | nil => exact absurd rfl hm
      | cons kv ms =>
        simp [debugLoop, maxKeyLength, ih h', Bind.bind, Except.bind]

/-- Claim C10: in debug mode, a response containing a date with an empty
metrics map makes the debug printer take the maximum of an empty collection
and raise; the exception escapes `poll_api` (it is not the handled
request-error path), so no date of that response is stored that cycle, the
error is logged as unexpected, and the loop continues. -/
theorem C10_debug_empty_metrics_crashes_cycle (c : Config)
    (failD failW : Nat → Bool) (dd : List (Nat × Metrics)) (status : Nat)
    (body : String) (s : Store) (hdbg : c.debug_mode = true)
    (hst : raisesForStatus status = false) (h : ∃ x ∈ dd, x.2 = []) :
    maxKeyLength [] = .error () ∧
    (poll_api c (.http status body (.daily dd))).val = .error () ∧
    (run_cycle c failD failW (.fetch (.http status body (.daily dd))) s).store
      = s ∧
    (run_cycle c failD failW
      (.fetch (.http status body (.daily dd))) s).written = 0 ∧
    (run_cycle c failD failW
      (.fetch (.http status body (.daily dd))) s).looping = true ∧
    LogLine.unexpectedError ∈
      (run_cycle c failD failW
        (.fetch (.http status body (.daily dd))) s).log := by
  have herr := debugLoop_error_of_empty dd h
  have hpoll : poll_api c (.http status body (.daily dd)) =
      ⟨.error (), [LogLine.pollingUrl]⟩ := by
    simp [poll_api, hst, hdbg, print_debug_data, herr]
  refine ⟨rfl, by rw [hpoll], ?_, ?_, ?_, ?_⟩ <;> simp [run_cycle, hpoll]

theorem C10_debug_empty_metrics_crashes_cycle_witness :
    (cfgOn true).debug_mode = true ∧
    raisesForStatus 200 = false ∧
    (∃ x ∈ [((0 : Nat), ([] : Metrics))], x.2 = []) ∧
    (maxKeyLength [] = .error () ∧
    (poll_api (cfgOn true) (.http 200 "resp" (.daily [(0, [])]))).val =
      .error () ∧
    (run_cycle (cfgOn true) (fun _ => false) (fun _ => false)
      (.fetch (.http 200 "resp" (.daily [(0, [])]))) []).store = [] ∧
    (run_cycle (cfgOn true) (fun _ => false) (fun _ => false)
      (.fetch (.http 200 "resp" (.daily [(0, [])]))) []).written = 0 ∧
    (run_cycle (cfgOn true) (fun _ => false) (fun _ => false)
      (.fetch (.http 200 "resp" (.daily [(0, [])]))) []).looping = true ∧
    LogLine.unexpectedError ∈
      (run_cycle (cfgOn true) (fun _ => false) (fun _ => false)
        (.fetch (.http 200 "resp" (.daily [(0, [])]))) []).log) :=
  ⟨rfl, by decide, by decide,
   C10_debug_empty_metrics_crashes_cycle (cfgOn true) (fun _ => false)
     (fun _ => false) [(0, [])] 200 "resp" [] rfl (by decide) (by decide)⟩
